import Mathlib

/-!
Verification development for the LaSTy Language Smart Trainer repository.

The definitions below are a shallow embedding of the Python source:
`config.py` (interval tables and limits), `database.py` (word import,
due-word selection, progress update), `ai_service.py` (answer analysis and
sentence generation) and `training_engine.py` (session orchestration).
Dates are modelled as integers (days); Python strings are Lean `String`s,
with small helpers mirroring `str.strip`, `str.lower`, `str.split` and the
substring operator `in`.
-/

namespace LaSTy

/-! ## Python string helpers -/

/-- ASCII whitespace, the characters relevant to this code base for Python
`str.strip()` / `str.split()`. -/
def pyWsChars : List Char := [' ', '\t', '\n', '\r']

/-- Drop characters of `bad` from both ends of a character list
(Python `str.strip(bad)`). -/
def pyStripList (bad : List Char) (cs : List Char) : List Char :=
  ((cs.dropWhile (fun c => bad.contains c)).reverse.dropWhile
    (fun c => bad.contains c)).reverse

/-- Python `s.strip()` (whitespace on both ends). -/
def pyStrip (s : String) : String :=
  ⟨pyStripList pyWsChars s.data⟩

/-- Python `s.lower()` (per-character case folding; ASCII suffices for this
code base). -/
def pyLower (s : String) : String :=
  ⟨s.data.map Char.toLower⟩

/-- Python `s.lower().strip()`, the normalisation used by the answer analysis. -/
def pyNormalize (s : String) : String :=
  pyStrip (pyLower s)

/-- Boolean infix test on character lists: `p` occurs contiguously in `s`. -/
def listIsSubList (p s : List Char) : Bool :=
  (List.range (s.length + 1)).any (fun i => p.isPrefixOf (s.drop i))

/-- Python `a in b` on strings: substring containment. -/
def pyInStr (a b : String) : Bool :=
  listIsSubList a.data b.data

/-- Number of maximal whitespace-free runs in a character list; the Boolean
argument records whether the previous character was inside a run. -/
def pyWordCountAux : List Char → Bool → Nat
  | [], _ => 0
  | c :: rest, inWord =>
    if pyWsChars.contains c then pyWordCountAux rest false
    else (if inWord then 0 else 1) + pyWordCountAux rest true

/-- Python `len(s.split())`: the number of whitespace-separated words. -/
def pyWordCount (s : String) : Nat :=
  pyWordCountAux s.data false

/-! ## config.py -/

/-- `config.py` line 26. -/
def PROGRESS_INCREMENT : Int := 20

/-- `config.py` line 27. -/
def PROGRESS_DECREMENT : Int := 40

/-- `config.py` lines 30-37, in insertion order (Python dict iteration order). -/
def EBINGHAUS_INTERVALS : List ((Int × Int) × Int) :=
  [((0, 19), 0), ((20, 39), 1), ((40, 59), 3), ((60, 79), 7), ((80, 99), 14), ((100, 100), 45)]

/-- `config.py` line 25. -/
def TRAINING_SESSION_LIMITS : List Nat := [1, 3, 5, 10, 20]

/-! ## database.py: word rows and progress update -/

/-- One `word_pairs` row, the fields the training logic reads and writes.
Dates are days (integers); `last_training_date` is nullable. -/
structure WordRow where
  word_id : String
  user_id : String
  native_word : String
  target_word : String
  progress : Int
  last_training_date : Option Int
  next_training_date : Int
  language : String
deriving DecidableEq

/-- The word record built by `DatabaseManager.import_word_pairs`
(`database.py` lines 121-130) for a non-duplicate pair: stripped texts,
progress 0, no last-training date, next-training date "today". -/
def newWordData (wid uid native_word target_word : String) (today : Int)
    (lang : String) : WordRow :=
  { word_id := wid, user_id := uid,
    native_word := pyStrip native_word, target_word := pyStrip target_word,
    progress := 0, last_training_date := none, next_training_date := today,
    language := lang }

/-- The interval-selection loop of `update_word_progress`
(`database.py` lines 259-263): default 1 day, first matching bracket wins. -/
def lookupInterval (np : Int) : List ((Int × Int) × Int) → Int
  | [] => 1
  | ((lo, hi), days) :: rest => if lo ≤ np ∧ np ≤ hi then days else lookupInterval np rest

/-- The progress/schedule fields of one word, as read and written by
`update_word_progress`. -/
structure WordState where
  progress : Int
  last_training_date : Option Int
  next_training_date : Int
deriving DecidableEq

/-- `DatabaseManager.update_word_progress` (`database.py` lines 221-283),
restricted to the found-word path: the new progress/date fields it persists,
given the three outcome flags in the priority order of the source
(morphological first, then synonym, then correct, else incorrect). -/
def update_word_progress (today : Int) (w : WordState)
    (is_correct is_morphological_error is_synonym : Bool) : WordState :=
  if is_morphological_error then
    { w with last_training_date := some today }
  else if is_synonym then
    { w with last_training_date := some today }
  else if is_correct then
    let new_progress := min 100 (w.progress + PROGRESS_INCREMENT)
    { progress := new_progress,
      last_training_date := some today,
      next_training_date := today + lookupInterval new_progress EBINGHAUS_INTERVALS }
  else
    { progress := max 0 (w.progress - PROGRESS_DECREMENT),
      last_training_date := some today,
      next_training_date := today }

/-- Fold a sequence of outcome-flag triples (correct, morphological, synonym)
through `update_word_progress`, as successive training answers do. -/
def run_outcomes (today : Int) (w : WordState) (outs : List (Bool × Bool × Bool)) : WordState :=
  outs.foldl (fun st o => update_word_progress today st o.1 o.2.1 o.2.2) w

/-- The bracket table exactly as the spec words it (claim side), total on ℤ with
the last bracket as default; it agrees with the source's lookup on [0,100]. -/
def specBracketDays (np : Int) : Int :=
  if 0 ≤ np ∧ np ≤ 19 then 0
  else if 20 ≤ np ∧ np ≤ 39 then 1
  else if 40 ≤ np ∧ np ≤ 59 then 3
  else if 60 ≤ np ∧ np ≤ 79 then 7
  else if 80 ≤ np ∧ np ≤ 99 then 14
  else 45

theorem lookupInterval_eq_specBracketDays (np : Int) (h0 : 0 ≤ np) (h1 : np ≤ 100) :
    lookupInterval np EBINGHAUS_INTERVALS = specBracketDays np := by
  simp only [EBINGHAUS_INTERVALS, lookupInterval, specBracketDays]
  split_ifs <;> omega

theorem update_progress_bounds (today : Int) (w : WordState) (c m s : Bool)
    (h0 : 0 ≤ w.progress) (h1 : w.progress ≤ 100) :
    0 ≤ (update_word_progress today w c m s).progress ∧
      (update_word_progress today w c m s).progress ≤ 100 := by
  unfold update_word_progress
  split_ifs <;> simp [PROGRESS_INCREMENT, PROGRESS_DECREMENT] <;> omega

theorem run_outcomes_bounds (today : Int) :
    ∀ (outs : List (Bool × Bool × Bool)) (w : WordState),
      0 ≤ w.progress → w.progress ≤ 100 →
      0 ≤ (run_outcomes today w outs).progress ∧ (run_outcomes today w outs).progress ≤ 100
  | [], w, h0, h1 => by simpa [run_outcomes] using ⟨h0, h1⟩
  | o :: rest, w, h0, h1 => by
    have hstep := update_progress_bounds today w o.1 o.2.1 o.2.2 h0 h1
    simpa [run_outcomes] using
      run_outcomes_bounds today rest (update_word_progress today w o.1 o.2.1 o.2.2)
        hstep.1 hstep.2

theorem run_incorrect_from_zero (today : Int) :
    ∀ (n : Nat) (d : Option Int) (nd : Int),
      (run_outcomes today ⟨0, d, nd⟩ (List.replicate n (false, false, false))).progress = 0
  | 0, _, _ => rfl
  | Nat.succ k, d, nd => by
    simpa [run_outcomes, update_word_progress, PROGRESS_DECREMENT] using
      run_incorrect_from_zero today k (some today) today

theorem run_correct_from_hundred (today : Int) :
    ∀ (n : Nat) (d : Option Int) (nd : Int),
      (run_outcomes today ⟨100, d, nd⟩ (List.replicate n (true, false, false))).progress = 100
  | 0, _, _ => rfl
  | Nat.succ k, d, nd => by
    simpa [run_outcomes, update_word_progress, PROGRESS_INCREMENT,
      lookupInterval, EBINGHAUS_INTERVALS] using
      run_correct_from_hundred today k (some today) (today + 45)

/-- C1: with a Correct outcome, `update_word_progress` sets
`new_progress = min(100, p + 20)` and the next training date to today plus the
interval of the bracket containing `new_progress` ([0,19]→0, [20,39]→1,
[40,59]→3, [60,79]→7, [80,99]→14, [100,100]→45); with an Incorrect outcome it
sets `new_progress = max(0, p - 40)` and the next training date to today. -/
theorem C1_update_word_progress (p today : Int) (d : Option Int) (nd : Int)
    (h0 : 0 ≤ p) (h1 : p ≤ 100) :
    ((update_word_progress today ⟨p, d, nd⟩ true false false).progress
        = min 100 (p + 20)
      ∧ (update_word_progress today ⟨p, d, nd⟩ true false false).next_training_date
        = today + specBracketDays (min 100 (p + 20)))
    ∧ ((update_word_progress today ⟨p, d, nd⟩ false false false).progress
        = max 0 (p - 40)
      ∧ (update_word_progress today ⟨p, d, nd⟩ false false false).next_training_date
        = today) := by
  refine ⟨⟨?_, ?_⟩, ?_, ?_⟩ <;>
    simp only [update_word_progress, PROGRESS_INCREMENT, PROGRESS_DECREMENT,
      if_false, if_true, Bool.false_eq_true, ite_false, ite_true]
  · rw [lookupInterval_eq_specBracketDays] <;> omega

theorem C1_update_word_progress_witness :
    ((update_word_progress 0 ⟨30, none, 5⟩ true false false).progress
        = min 100 (30 + 20)
      ∧ (update_word_progress 0 ⟨30, none, 5⟩ true false false).next_training_date
        = 0 + specBracketDays (min 100 (30 + 20)))
    ∧ ((update_word_progress 0 ⟨30, none, 5⟩ false false false).progress
        = max 0 (30 - 40)
      ∧ (update_word_progress 0 ⟨30, none, 5⟩ false false false).next_training_date
        = 0) :=
  C1_update_word_progress 30 0 none 5 (by decide) (by decide)

/-- C2: starting from any progress in [0,100], every sequence of outcome flags
keeps progress in [0,100] (hence it holds after each step); repeated Incorrect
from 10 clamps at 0 and repeated Correct from 90 clamps at 100 (for at least
one step); and a word created by `import_word_pairs` starts at progress 0 with
next training date today. -/
theorem C2_progress_invariant (p today : Int) (d : Option Int) (nd : Int)
    (outs : List (Bool × Bool × Bool)) (n : Nat)
    (wid uid nat tgt lang : String)
    (h0 : 0 ≤ p) (h1 : p ≤ 100) (hn : 1 ≤ n) :
    (0 ≤ (run_outcomes today ⟨p, d, nd⟩ outs).progress
      ∧ (run_outcomes today ⟨p, d, nd⟩ outs).progress ≤ 100)
    ∧ (run_outcomes today ⟨10, d, nd⟩ (List.replicate n (false, false, false))).progress = 0
    ∧ (run_outcomes today ⟨90, d, nd⟩ (List.replicate n (true, false, false))).progress = 100
    ∧ (newWordData wid uid nat tgt today lang).progress = 0
    ∧ (newWordData wid uid nat tgt today lang).next_training_date = today := by
  refine ⟨run_outcomes_bounds today outs ⟨p, d, nd⟩ h0 h1, ?_, ?_, rfl, rfl⟩
  · obtain ⟨k, rfl⟩ : ∃ k, n = k + 1 := ⟨n - 1, by omega⟩
    rw [List.replicate_succ]
    simpa [run_outcomes, update_word_progress, PROGRESS_DECREMENT] using
      run_incorrect_from_zero today k (some today) today
  · obtain ⟨k, rfl⟩ : ∃ k, n = k + 1 := ⟨n - 1, by omega⟩
    rw [List.replicate_succ]
    simpa [run_outcomes, update_word_progress, PROGRESS_INCREMENT,
      lookupInterval, EBINGHAUS_INTERVALS] using
      run_correct_from_hundred today k (some today) (today + 45)

theorem C2_progress_invariant_witness :
    (0 ≤ (run_outcomes 0 ⟨50, none, 0⟩ [(true, false, false), (false, false, false)]).progress
      ∧ (run_outcomes 0 ⟨50, none, 0⟩ [(true, false, false), (false, false, false)]).progress ≤ 100)
    ∧ (run_outcomes 0 ⟨10, none, 0⟩ (List.replicate 3 (false, false, false))).progress = 0
    ∧ (run_outcomes 0 ⟨90, none, 0⟩ (List.replicate 3 (true, false, false))).progress = 100
    ∧ (newWordData "w" "u" "dog" "perro" 0 "es").progress = 0
    ∧ (newWordData "w" "u" "dog" "perro" 0 "es").next_training_date = 0 :=
  C2_progress_invariant 50 0 none 0 [(true, false, false), (false, false, false)] 3
    "w" "u" "dog" "perro" "es" (by decide) (by decide) (by decide)

/-- C3: with a MorphologicalVariant or SynonymAccepted outcome,
`update_word_progress` leaves both the stored progress and the stored next
training date unchanged, whatever the other flags and the previous schedule. -/
theorem C3_neutral_outcomes (today : Int) (w : WordState) (c s : Bool) :
    ((update_word_progress today w c true s).progress = w.progress
      ∧ (update_word_progress today w c true s).next_training_date = w.next_training_date)
    ∧ ((update_word_progress today w c false true).progress = w.progress
      ∧ (update_word_progress today w c false true).next_training_date
        = w.next_training_date) := by
  unfold update_word_progress
  simp

/-! ## database.py: due-word selection (`get_words_for_training`, lines 169-219)

`random.sample` draws without replacement; it is modelled by an abstract
sampling function, constrained by `SampleOK` exactly where the source relies
on it (a sample of `k ≤ |pool|` elements has length `k` and is drawn from the
pool).  The three Supabase queries filter the `word_pairs` table by
user, language and (for the first two) the date condition; they are modelled
as filters over the table contents `rows`. -/

/-- What `random.sample(pool, k)` guarantees for `k ≤ |pool|`. -/
def SampleOK (sample : List WordRow → Nat → List WordRow) : Prop :=
  ∀ (l : List WordRow) (k : Nat), k ≤ l.length →
    (sample l k).length = k ∧ ∀ x ∈ sample l k, x ∈ l

/-- One admissible sampler (used for concrete evaluations): take the first
`k` elements.  On a single-element pool with `k = 1` every sampler, including
`random.sample`, must produce this same output. -/
def sampleTake (l : List WordRow) (k : Nat) : List WordRow := l.take k

theorem sampleTake_ok : SampleOK sampleTake := by
  intro l k h
  constructor
  · simp [sampleTake]
    omega
  · intro x hx
    exact List.take_subset k l hx

/-- `DatabaseManager.get_words_for_training` (`database.py` lines 169-219):
overdue words (next date ≤ today) first; if they exceed the limit, sample the
limit from them; otherwise top up with a sample of the words whose next date
is ≠ today; if no overdue words exist, sample from all of the user's words. -/
def get_words_for_training (sample : List WordRow → Nat → List WordRow)
    (rows : List WordRow) (uid lang : String) (limit : Nat) (today : Int) :
    List WordRow :=
  let overdue := rows.filter
    (fun w => w.user_id == uid && w.language == lang && decide (w.next_training_date ≤ today))
  if overdue ≠ [] then
    if limit ≤ overdue.length then
      sample overdue limit
    else
      let remaining_limit := limit - overdue.length
      let other := rows.filter
        (fun w => w.user_id == uid && w.language == lang && decide (w.next_training_date ≠ today))
      if other ≠ [] then
        overdue ++ sample other (min remaining_limit other.length)
      else
        overdue
  else
    let all := rows.filter (fun w => w.user_id == uid && w.language == lang)
    if all ≠ [] then sample all (min limit all.length) else []

/-- A concrete word pair whose next training date (yesterday, day -1) is both
≤ today and ≠ today, so it lies in the overdue pool and in the fallback pool. -/
def wDog : WordRow :=
  { word_id := "w0", user_id := "u", native_word := "dog", target_word := "perro",
    progress := 0, last_training_date := none, next_training_date := -1, language := "es" }

/-- C4 counterexample: with the single word `wDog` due yesterday and the
session limit 3, the fallback pool (next date ≠ today) contains `wDog` again,
and `get_words_for_training` returns it twice — the selection does return the
same word pair twice in one result.  (With a one-element pool and sample size
one, `random.sample` can only return that element, so this output is forced
for every admissible sampler.) -/
theorem C4_duplicates_counterexample :
    get_words_for_training sampleTake [wDog] "u" "es" 3 0 = [wDog, wDog]
    ∧ ¬ (get_words_for_training sampleTake [wDog] "u" "es" 3 0).Nodup := by
  constructor
  · rfl
  · decide

/-- C4 (amended): for every admissible sampler, `get_words_for_training`
returns at most `limit` word pairs, and — for any configured session limit —
returns the empty list (reported as "No words available for training" by
`start_training_session`) iff the user has zero word pairs for the language;
but the result may contain the same overdue word pair twice, since the
fallback pool "next date ≠ today" overlaps the overdue pool on past-due words. -/
theorem C4_selection_amended (sample : List WordRow → Nat → List WordRow)
    (rows : List WordRow) (uid lang : String) (limit : Nat) (today : Int)
    (hs : SampleOK sample) (hlim : limit ∈ TRAINING_SESSION_LIMITS) :
    (get_words_for_training sample rows uid lang limit today).length ≤ limit
    ∧ (get_words_for_training sample rows uid lang limit today = [] ↔
        rows.filter (fun w => w.user_id == uid && w.language == lang) = []) := by
  have hlim1 : 1 ≤ limit := by
    simp only [TRAINING_SESSION_LIMITS, List.mem_cons, List.not_mem_nil, or_false] at hlim
    omega
  unfold get_words_for_training
  set overdue := rows.filter
    (fun w => w.user_id == uid && w.language == lang && decide (w.next_training_date ≤ today))
    with hoverdue
  set other := rows.filter
    (fun w => w.user_id == uid && w.language == lang && decide (w.next_training_date ≠ today))
    with hother
  set all := rows.filter (fun w => w.user_id == uid && w.language == lang) with hall
  have hov_sub : overdue = [] ∨ all ≠ [] := by
    rcases eq_or_ne overdue [] with h | h
    · exact Or.inl h
    · refine Or.inr ?_
      obtain ⟨x, hx⟩ := List.exists_mem_of_ne_nil overdue h
      have hx' := List.mem_filter.mp (hoverdue ▸ hx)
      intro hcon
      have : x ∈ all := by
        rw [hall]
        refine List.mem_filter.mpr ⟨hx'.1, ?_⟩
        have := hx'.2
        simp only [Bool.and_assoc, Bool.and_eq_true] at this ⊢
        exact ⟨this.1, this.2.1⟩
      simp [hcon] at this
  dsimp only
  split_ifs with h1 h2 h3 h4
  · -- enough overdue words: sample exactly `limit`
    have := hs overdue limit h2
    refine ⟨le_of_eq this.1, ?_, fun hnil => hov_sub.elim (fun h => absurd h h1) (fun h => absurd hnil h)⟩
    intro hempty
    rw [hempty] at this
    simp at this
    omega
  · -- overdue words exist but fewer than the limit; fallback pool nonempty
    have hlen := (hs other (min (limit - overdue.length) other.length) (min_le_right _ _)).1
    constructor
    · rw [List.length_append, hlen]
      omega
    · constructor
      · intro hempty
        rcases List.append_eq_nil.mp hempty with ⟨hov, _⟩
        exact absurd hov h1
      · intro hnil
        exact hov_sub.elim (fun h => absurd h h1) (fun h => absurd hnil h)
  · -- overdue words exist but fewer than the limit; fallback pool empty
    refine ⟨by omega, fun hempty => absurd hempty h1,
      fun hnil => hov_sub.elim (fun h => absurd h h1) (fun h => absurd hnil h)⟩
  · -- no overdue words, but the user has words
    have := hs all (min limit all.length) (min_le_right _ _)
    refine ⟨le_trans (le_of_eq this.1) (min_le_left _ _), ?_, fun hnil => absurd hnil h4⟩
    intro hempty
    rw [hempty] at this
    have hall_len : 0 < all.length := List.length_pos.mpr h4
    simp at this
    omega
  · -- the user has no words at all
    exact ⟨by simp, by simp [not_ne_iff.mp h4]⟩
  -- (resolved by the five branch proofs above)

theorem C4_selection_amended_witness :
    ((get_words_for_training sampleTake [wDog] "u" "es" 3 0).length ≤ 3
    ∧ (get_words_for_training sampleTake [wDog] "u" "es" 3 0 = [] ↔
        [wDog].filter (fun w => w.user_id == "u" && w.language == "es") = [])) :=
  C4_selection_amended sampleTake [wDog] "u" "es" 3 0 sampleTake_ok (by decide)

/-! ## ai_service.py: answer analysis -/

/-- The three outcome flags plus explanation returned by every analysis
function of `AIService` (`is_correct`, `is_morphological_error`, `is_synonym`). -/
structure Analysis where
  is_correct : Bool
  is_morphological_error : Bool
  is_synonym : Bool
  explanation : String
deriving DecidableEq

/-- The four user-facing verdicts (spec §3, AnswerOutcome). -/
inductive Classification where
  | correct
  | morphologicalVariant
  | synonymAccepted
  | incorrect
deriving DecidableEq

/-- The verdict the three flags encode, in the priority order of the response
messages in `TrainingEngine.submit_answer` (`training_engine.py` lines 442-449). -/
def classificationOfFlags (is_correct is_morphological_error is_synonym : Bool) :
    Classification :=
  if is_synonym then .synonymAccepted
  else if is_morphological_error then .morphologicalVariant
  else if is_correct then .correct
  else .incorrect

/-- The verdict of an `Analysis` value. -/
def classificationOf (a : Analysis) : Classification :=
  classificationOfFlags a.is_correct a.is_morphological_error a.is_synonym

/-- How many of the three flags are set ("exactly one of the four
classifications" means at most one flag; no flag means Incorrect). -/
def flagCount (a : Analysis) : Nat :=
  (cond a.is_correct 1 0) + (cond a.is_morphological_error 1 0) + (cond a.is_synonym 1 0)

/-- `AIService.analyze_answer` (`ai_service.py` lines 154-205) when every
Oracle call raises: the exact-match and substring checks run before any
Oracle use, and the sentence-similarity helper returns its exception fallback
(`ai_service.py` lines 250-258). -/
def analyze_answer_oracle_down (user_answer correct_answer : String) : Analysis :=
  let user_clean := pyNormalize user_answer
  let correct_clean := pyNormalize correct_answer
  if user_clean == correct_clean then
    ⟨true, false, false, "Правильный ответ!"⟩
  else if 1 < pyWordCount user_clean ∧ 1 < pyWordCount correct_clean then
    ⟨false, false, false, "Ошибка анализа ответа"⟩
  else if pyInStr user_clean correct_clean || pyInStr correct_clean user_clean then
    ⟨false, true, false, "Хороший смысл, но проверьте форму слова. Ответ принят!"⟩
  else
    ⟨false, false, false, "Неправильный ответ"⟩

/-- `AIService.analyze_fill_blank_answer` (`ai_service.py` lines 758-767) when
the Oracle raises: the exception fallback compares normalised strings. -/
def analyze_fill_blank_oracle_down (user_answer correct_word : String) : Analysis :=
  let is_correct := pyNormalize user_answer == pyNormalize correct_word
  ⟨is_correct, false, false,
    if is_correct then "Проверка ответа выполнена" else "Ответ неверный"⟩

/-- Stage-1 result record of `AIService.analyze_translation_sentence`. -/
structure SentenceAnalysis where
  success : Bool
  has_errors : Bool
  errors : List String
  corrected_sentence : String
  overall_quality : String

/-- Stage-2 result record of `AIService.analyze_target_word_usage`. -/
structure WordAnalysis where
  success : Bool
  word_present : Bool
  spelling_correct : Bool
  grammar_correct : Bool
  context_appropriate : Bool
  overall_correct : Bool
  errors : List String
  suggested_correction : String

/-- `analyze_translation_sentence` exception fallback
(`ai_service.py` lines 510-518). -/
def analyze_translation_sentence_oracle_down (user_sentence : String) : SentenceAnalysis :=
  ⟨false, false, [], user_sentence, "unknown"⟩

/-- `analyze_target_word_usage` exception fallback
(`ai_service.py` lines 574-585). -/
def analyze_target_word_usage_oracle_down (user_sentence target_word : String) : WordAnalysis :=
  ⟨false, pyInStr (pyLower target_word) (pyLower user_sentence),
    false, false, false, false, ["Analysis failed"], target_word⟩

/-- Python `any(k in e for k in keys)`. -/
def pyInAny (keys : List String) (e : String) : Bool :=
  keys.any (fun k => pyInStr k e)

/-- Category and detail assigned to one sentence-level error string
(`ai_service.py` lines 596-612). -/
def sentence_error_entry (error : String) : String × String :=
  let e := pyLower error
  if pyInAny ["grammar", "grammatical", "syntax", "syntactic"] e then
    ("grammar", "Grammar: " ++ error)
  else if pyInAny ["punctuation", "comma", "period", "question mark"] e then
    ("punctuation", "Punctuation: " ++ error)
  else if pyInAny ["vocabulary", "word choice", "lexical"] e then
    ("vocabulary", "Vocabulary: " ++ error)
  else if pyInAny ["style", "stylistic", "register"] e then
    ("style", "Style: " ++ error)
  else
    ("general", "General: " ++ error)

/-- Category and detail assigned to one target-word error string
(`ai_service.py` lines 617-630). -/
def word_error_entry (error : String) : String × String :=
  let e := pyLower error
  if pyInAny ["spelling", "spelled", "spell"] e then
    ("spelling", "Spelling: " ++ error)
  else if pyInAny ["grammar", "grammatical", "form", "tense", "case"] e then
    ("word_grammar", "Word Grammar: " ++ error)
  else if pyInAny ["context", "contextual", "meaning", "semantic"] e then
    ("context", "Context: " ++ error)
  else
    ("word_usage", "Word Usage: " ++ error)

/-- The result record of `classify_translation_errors`. -/
structure TransAnalysis where
  is_correct : Bool
  is_morphological_error : Bool
  is_synonym : Bool
  explanation : String
  error_categories : List String
  error_details : List String
  sentence_quality : String

/-- `AIService.classify_translation_errors` (`ai_service.py` lines 587-663):
pure combination of the two stage results.  `list(set(...))` is modelled by
`List.dedup` (the claims only concern membership and absence of duplicates;
Python's set order is unspecified). -/
def classify_translation_errors (sa : SentenceAnalysis) (wa : WordAnalysis) : TransAnalysis :=
  let sentence_entries := if sa.has_errors then sa.errors.map sentence_error_entry else []
  let word_entries := if wa.overall_correct then [] else wa.errors.map word_error_entry
  let entries := sentence_entries ++ word_entries
  let error_categories := entries.map Prod.fst
  let error_details := entries.map Prod.snd
  let is_correct := !sa.has_errors && wa.overall_correct
  let is_morphological_error := wa.spelling_correct && wa.grammar_correct && !wa.overall_correct
  let explanation :=
    if is_correct then "Правильный ответ!"
    else if is_morphological_error then "Хороший смысл, но проверьте форму слова. Ответ принят!"
    else if error_details ≠ [] then
      "Найдены ошибки: " ++ String.intercalate "; " (error_details.take 2)
    else "Неправильный ответ"
  { is_correct := is_correct, is_morphological_error := is_morphological_error,
    is_synonym := false, explanation := explanation,
    error_categories := error_categories.dedup,
    error_details := error_details, sentence_quality := sa.overall_quality }

/-- The flags-and-explanation part of a `TransAnalysis`, as consumed by
`submit_answer`. -/
def TransAnalysis.toAnalysis (t : TransAnalysis) : Analysis :=
  ⟨t.is_correct, t.is_morphological_error, t.is_synonym, t.explanation⟩

/-- The analysis dispatch of `TrainingEngine.submit_answer`
(`training_engine.py` lines 367-386) when every Oracle call fails: the task
type prefix of the task id selects the three-stage translation pipeline
("trans"), the fill-blank analysis ("fill"), or `analyze_answer` (otherwise),
each running on its Oracle-failure fallback path. -/
def submit_answer_analysis_oracle_down (task_type user_answer target_word : String) :
    Analysis :=
  if task_type == "trans" then
    (classify_translation_errors
      (analyze_translation_sentence_oracle_down user_answer)
      (analyze_target_word_usage_oracle_down user_answer target_word)).toAnalysis
  else if task_type == "fill" then
    analyze_fill_blank_oracle_down user_answer target_word
  else
    analyze_answer_oracle_down user_answer target_word

/-- C5 counterexample: with the Oracle down, a translation-task answer that
exactly equals the correct answer after lowercasing and trimming is still
classified Incorrect — the translation pipeline performs no exact-match check,
and its failure fallback fixes `overall_correct = false`. -/
theorem C5_trans_exact_match_counterexample :
    pyNormalize " Hund " = pyNormalize "hund"
    ∧ classificationOf (submit_answer_analysis_oracle_down "trans" " Hund " "hund")
      = Classification.incorrect := by
  constructor
  · rfl
  · rfl

/-- C5 (amended): with every Oracle call failing, the analysis behind
`submit_answer` is a total function (no exception escapes) that always
returns at most one of the three outcome flags — hence exactly one of the
four classifications; for every task type other than translation, an answer
equal to the correct answer after lowercasing and trimming is classified
Correct; on translation tasks the failure path classifies even exact matches
Incorrect. -/
theorem C5_oracle_down_amended (task_type user_answer target_word : String) :
    flagCount (submit_answer_analysis_oracle_down task_type user_answer target_word) ≤ 1
    ∧ (task_type ≠ "trans" →
        pyNormalize user_answer = pyNormalize target_word →
        (submit_answer_analysis_oracle_down task_type user_answer target_word).is_correct
          = true)
    ∧ (task_type = "trans" →
        (submit_answer_analysis_oracle_down task_type user_answer target_word).is_correct
          = false) := by
  unfold submit_answer_analysis_oracle_down
  by_cases htr : task_type = "trans"
  · subst htr
    simp only [beq_self_eq_true, if_true]
    refine ⟨?_, fun h => absurd rfl h, fun _ => rfl⟩
    simp [flagCount, classify_translation_errors, TransAnalysis.toAnalysis,
      analyze_translation_sentence_oracle_down, analyze_target_word_usage_oracle_down]
  · have hne : (task_type == "trans") = false := by simp [htr]
    rw [hne]
    simp only [Bool.false_eq_true, if_false]
    refine ⟨?_, fun _ heq => ?_, fun h => absurd h htr⟩
    · by_cases hf : (task_type == "fill") = true
      · rw [if_pos hf]
        unfold analyze_fill_blank_oracle_down
        dsimp only
        by_cases he : pyNormalize user_answer == pyNormalize target_word <;>
          simp [flagCount, he]
      · rw [if_neg hf]
        unfold analyze_answer_oracle_down
        dsimp only
        split_ifs <;> simp [flagCount]
    · by_cases hf : (task_type == "fill") = true
      · rw [if_pos hf]
        unfold analyze_fill_blank_oracle_down
        simp [heq]
      · rw [if_neg hf]
        unfold analyze_answer_oracle_down
        simp [heq]

theorem C5_oracle_down_amended_witness :
    (flagCount (submit_answer_analysis_oracle_down "fill" " Hund " "hund") ≤ 1
    ∧ ("fill" ≠ "trans" →
        pyNormalize " Hund " = pyNormalize "hund" →
        (submit_answer_analysis_oracle_down "fill" " Hund " "hund").is_correct = true)
    ∧ ("fill" = "trans" →
        (submit_answer_analysis_oracle_down "fill" " Hund " "hund").is_correct = false)) :=
  C5_oracle_down_amended "fill" " Hund " "hund"

/-- The score/tag classification of `AIService.analyze_fill_blank_answer`
(`ai_service.py` lines 728-756), given the score and type tag parsed from the
Oracle's `SCORE:`/`TYPE:` lines. -/
def fill_blank_decision (score : Int) (answer_type : String) : Analysis :=
  if 9 ≤ score then
    ⟨true, false, false, "Правильный ответ!"⟩
  else if 7 ≤ score ∧ ((answer_type == "synonym") = true ∨ (answer_type == "morphological") = true) then
    ⟨false, answer_type == "morphological", answer_type == "synonym",
      "Хороший ответ! Это синоним или альтернативный вариант."⟩
  else if 6 ≤ score then
    ⟨false, true, false, "Хороший смысл, но проверьте форму слова. Ответ принят!"⟩
  else
    ⟨false, false, false, "Неправильный ответ"⟩

/-- C6: for a fill-blank answer scored `s ∈ [1,10]` with a type tag, the
classification is: `s ≥ 9` → Correct; `s ∈ [7,8]` with tag `synonym` →
SynonymAccepted and with tag `morphological` → MorphologicalVariant;
`s ∈ [6,8]` not caught by the previous clause → MorphologicalVariant;
`s ≤ 5` → Incorrect; and the result always carries at most one outcome flag,
hence exactly one of the four classifications. -/
theorem C6_fill_blank_mapping (s : Int) (tag : String) (h1 : 1 ≤ s) (h2 : s ≤ 10) :
    (9 ≤ s → classificationOf (fill_blank_decision s tag) = Classification.correct)
    ∧ (7 ≤ s → s ≤ 8 → tag = "synonym" →
        classificationOf (fill_blank_decision s tag) = Classification.synonymAccepted)
    ∧ (7 ≤ s → s ≤ 8 → tag = "morphological" →
        classificationOf (fill_blank_decision s tag) = Classification.morphologicalVariant)
    ∧ (6 ≤ s → s ≤ 8 → ¬(7 ≤ s ∧ (tag = "synonym" ∨ tag = "morphological")) →
        classificationOf (fill_blank_decision s tag) = Classification.morphologicalVariant)
    ∧ (s ≤ 5 → classificationOf (fill_blank_decision s tag) = Classification.incorrect)
    ∧ flagCount (fill_blank_decision s tag) ≤ 1 := by
  refine ⟨fun h9 => ?_, fun h7 h8 htag => ?_, fun h7 h8 htag => ?_,
    fun h6 h8 hnot => ?_, fun h5 => ?_, ?_⟩
  · unfold fill_blank_decision
    rw [if_pos h9]
    rfl
  · subst htag
    unfold fill_blank_decision
    rw [if_neg (by omega), if_pos ⟨h7, Or.inl (by decide)⟩]
    rfl
  · subst htag
    unfold fill_blank_decision
    rw [if_neg (by omega), if_pos ⟨h7, Or.inr (by decide)⟩]
    rfl
  · unfold fill_blank_decision
    rw [if_neg (by omega), if_neg (by simpa [beq_iff_eq] using hnot), if_pos h6]
    rfl
  · unfold fill_blank_decision
    rw [if_neg (by omega), if_neg (fun hc => by omega), if_neg (by omega)]
    rfl
  · unfold fill_blank_decision
    split_ifs with hb1 hb2 hb3
    · decide
    · rcases Bool.eq_false_or_eq_true (tag == "morphological") with hm | hm <;>
        rcases Bool.eq_false_or_eq_true (tag == "synonym") with hsy | hsy <;>
          simp [flagCount, hm, hsy]
      have hm' : tag = "morphological" := by simpa [beq_iff_eq] using hm
      have hsy' : tag = "synonym" := by simpa [beq_iff_eq] using hsy
      rw [hm'] at hsy'
      exact absurd hsy' (by decide)
    · decide
    · decide

theorem C6_fill_blank_mapping_witness :
    ((9 ≤ (8 : Int) → classificationOf (fill_blank_decision 8 "synonym") = Classification.correct)
    ∧ (7 ≤ (8 : Int) → (8 : Int) ≤ 8 → "synonym" = "synonym" →
        classificationOf (fill_blank_decision 8 "synonym") = Classification.synonymAccepted)
    ∧ (7 ≤ (8 : Int) → (8 : Int) ≤ 8 → "synonym" = "morphological" →
        classificationOf (fill_blank_decision 8 "synonym") = Classification.morphologicalVariant)
    ∧ (6 ≤ (8 : Int) → (8 : Int) ≤ 8 → ¬(7 ≤ (8 : Int) ∧ ("synonym" = "synonym" ∨ "synonym" = "morphological")) →
        classificationOf (fill_blank_decision 8 "synonym") = Classification.morphologicalVariant)
    ∧ ((8 : Int) ≤ 5 → classificationOf (fill_blank_decision 8 "synonym") = Classification.incorrect)
    ∧ flagCount (fill_blank_decision 8 "synonym") ≤ 1) :=
  C6_fill_blank_mapping 8 "synonym" (by decide) (by decide)

/-- The fixed error-category taxonomy of the translation-analysis pipeline. -/
def ERROR_TAXONOMY : List String :=
  ["grammar", "punctuation", "vocabulary", "style", "spelling", "word_grammar",
   "context", "word_usage", "general"]

theorem sentence_error_entry_cat (e : String) :
    (sentence_error_entry e).1 ∈ ERROR_TAXONOMY := by
  unfold sentence_error_entry ERROR_TAXONOMY
  dsimp only
  split_ifs <;> simp

theorem word_error_entry_cat (e : String) :
    (word_error_entry e).1 ∈ ERROR_TAXONOMY := by
  unfold word_error_entry ERROR_TAXONOMY
  dsimp only
  split_ifs <;> simp

/-- C7: `classify_translation_errors` judges the answer correct iff the
sentence stage flagged no errors and the word stage judged overall usage
correct; it classifies MorphologicalVariant iff spelling and grammar were
judged correct but overall usage incorrect; otherwise the classification is
Incorrect; and the returned error-category list is duplicate-free and drawn
from the fixed taxonomy. -/
theorem C7_classify_translation (sa : SentenceAnalysis) (wa : WordAnalysis) :
    ((classify_translation_errors sa wa).is_correct = true ↔
      (sa.has_errors = false ∧ wa.overall_correct = true))
    ∧ (classificationOf (classify_translation_errors sa wa).toAnalysis
        = Classification.morphologicalVariant ↔
      (wa.spelling_correct = true ∧ wa.grammar_correct = true ∧ wa.overall_correct = false))
    ∧ (¬(sa.has_errors = false ∧ wa.overall_correct = true) →
       ¬(wa.spelling_correct = true ∧ wa.grammar_correct = true ∧ wa.overall_correct = false) →
       classificationOf (classify_translation_errors sa wa).toAnalysis
        = Classification.incorrect)
    ∧ (∀ c ∈ (classify_translation_errors sa wa).error_categories, c ∈ ERROR_TAXONOMY)
    ∧ (classify_translation_errors sa wa).error_categories.Nodup := by
  refine ⟨?_, ?_, ?_, ?_, ?_⟩
  · cases hse : sa.has_errors <;> cases hwo : wa.overall_correct <;>
      simp [classify_translation_errors, hse, hwo]
  · cases hsp : wa.spelling_correct <;> cases hgr : wa.grammar_correct <;>
      cases hwo : wa.overall_correct <;> cases hse : sa.has_errors <;>
      simp [classify_translation_errors, TransAnalysis.toAnalysis,
        classificationOf, classificationOfFlags, hsp, hgr, hwo, hse]
  · intro hnc hnm
    cases hsp : wa.spelling_correct <;> cases hgr : wa.grammar_correct <;>
      cases hwo : wa.overall_correct <;> cases hse : sa.has_errors <;>
      simp_all [classify_translation_errors, TransAnalysis.toAnalysis,
        classificationOf, classificationOfFlags]
  · intro c hc
    have hmem := List.mem_dedup.mp hc
    obtain ⟨x, hx, hxc⟩ := List.mem_map.mp hmem
    rcases List.mem_append.mp hx with h | h
    · rcases hse : sa.has_errors <;> rw [hse] at h
      · simp at h
      · obtain ⟨e, _, hex⟩ := List.mem_map.mp (by simpa using h)
        rw [← hxc, ← hex]
        exact sentence_error_entry_cat e
    · rcases hwo : wa.overall_correct <;> rw [hwo] at h
      · obtain ⟨e, _, hex⟩ := List.mem_map.mp (by simpa using h)
        rw [← hxc, ← hex]
        exact word_error_entry_cat e
      · simp at h
  · exact List.nodup_dedup _

/-- A concrete stage-1 result: one grammar error flagged. -/
def saSample : SentenceAnalysis :=
  ⟨true, true, ["Grammar issue in the clause"], "corrected", "fair"⟩

/-- A concrete stage-2 result: word used, spelled and inflected correctly,
but judged wrong overall. -/
def waSample : WordAnalysis :=
  ⟨true, true, true, true, false, false, ["wrong tense form of the verb"], "ging"⟩

theorem C7_classify_translation_witness :
    (((classify_translation_errors saSample waSample).is_correct = true ↔
      (saSample.has_errors = false ∧ waSample.overall_correct = true))
    ∧ (classificationOf (classify_translation_errors saSample waSample).toAnalysis
        = Classification.morphologicalVariant ↔
      (waSample.spelling_correct = true ∧ waSample.grammar_correct = true
        ∧ waSample.overall_correct = false))
    ∧ (¬(saSample.has_errors = false ∧ waSample.overall_correct = true) →
       ¬(waSample.spelling_correct = true ∧ waSample.grammar_correct = true
          ∧ waSample.overall_correct = false) →
       classificationOf (classify_translation_errors saSample waSample).toAnalysis
        = Classification.incorrect)
    ∧ (∀ c ∈ (classify_translation_errors saSample waSample).error_categories,
        c ∈ ERROR_TAXONOMY)
    ∧ (classify_translation_errors saSample waSample).error_categories.Nodup) :=
  C7_classify_translation saSample waSample

/-! ## ai_service.py: sentence generation (`generate_sentence`, lines 43-115) -/

/-- The root form of a stored word: `re.split(r'\s*\(', target_word)[0].strip()`
— everything before the first parenthesis, whitespace-stripped
(`ai_service.py` lines 53 and 97). -/
def main_word_of (target_word : String) : String :=
  pyStrip ⟨target_word.data.takeWhile (fun c => !(c == '('))⟩

/-- `result.strip('"').strip("'").strip()` (`ai_service.py` line 92):
double quotes, then single quotes, then whitespace.  `Char.ofNat 39` is the
apostrophe. -/
def strip_quotes (s : String) : String :=
  pyStrip ⟨pyStripList [Char.ofNat 39] (pyStripList ['"'] s.data)⟩

/-- One loop iteration of `generate_sentence` after a successful Oracle call
(`ai_service.py` lines 89-109): strip the raw reply, reject it when empty,
clean the quotes, and accept iff the lower-cased root form occurs in the
lower-cased sentence (Python substring `in`). -/
def attempt_result (target_word raw : String) : Option String :=
  let result := pyStrip raw
  if result == "" then none
  else
    let cleaned := strip_quotes result
    if pyInStr (pyLower (main_word_of target_word)) (pyLower cleaned) then some cleaned
    else none

/-- `AIService.generate_sentence` (`ai_service.py` lines 77-111): at most two
attempts; a raised Oracle call (`oracle n = none`) on the last attempt, or a
failed validation on the last attempt, yields `none`. -/
def generate_sentence (oracle : Nat → Option String) (target_word : String) :
    Option String :=
  match oracle 0 with
  | none =>
    match oracle 1 with
    | none => none
    | some raw => attempt_result target_word raw
  | some raw =>
    match attempt_result target_word raw with
    | some s => some s
    | none =>
      match oracle 1 with
      | none => none
      | some raw2 => attempt_result target_word raw2

/-- Characters the regex class `\w` matches (ASCII range). -/
def isWordChar (c : Char) : Bool :=
  c.isAlphanum || c == '_'

/-- Whether `w` occurs in `s` starting at `i` with `\b` word boundaries on
both sides. -/
def wholeWordAt (w s : List Char) (i : Nat) : Bool :=
  w.isPrefixOf (s.drop i)
  && (i == 0 || !(isWordChar (s.getD (i - 1) ' ')))
  && (decide (s.length ≤ i + w.length) || !(isWordChar (s.getD (i + w.length) ' ')))

/-- Modelled from the spec: a case-insensitive whole-word search (regex
`\b word \b` semantics).  Claim-side comparator for C8; the source's check at
`ai_service.py` line 99 is a plain substring test. -/
def contains_whole_word_ci (word sentence : String) : Bool :=
  let w := (pyLower word).data
  let s := (pyLower sentence).data
  (List.range (s.length + 1)).any (fun i => wholeWordAt w s i)

theorem attempt_result_substring (t raw s : String) (h : attempt_result t raw = some s) :
    pyInStr (pyLower (main_word_of t)) (pyLower s) = true := by
  unfold attempt_result at h
  dsimp only at h
  by_cases h1 : (pyStrip raw == "") = true
  · rw [if_pos h1] at h
    exact Option.noConfusion h
  · rw [if_neg h1] at h
    by_cases h2 : pyInStr (pyLower (main_word_of t)) (pyLower (strip_quotes (pyStrip raw))) = true
    · rw [if_pos h2] at h
      rw [← Option.some.inj h]
      exact h2
    · rw [if_neg h2] at h
      exact Option.noConfusion h

/-- An Oracle whose sentence contains the target word only as a proper
substring of a longer word. -/
def oracleSub : Nat → Option String := fun _ => some "Information is power."

/-- C8 counterexample: for the word "format" the Oracle reply
"Information is power." passes the source's verification (substring test) and
is returned, although a case-insensitive whole-word search for the root form
fails on it. -/
theorem C8_substring_counterexample :
    generate_sentence oracleSub "format" = some "Information is power."
    ∧ contains_whole_word_ci (main_word_of "format") "Information is power." = false := by
  constructor
  · decide
  · decide

/-- C8 (amended): `generate_sentence` returns a sentence only if the word's
root form (the part before any parenthetical grammatical addition) occurs in
it by a case-insensitive SUBSTRING search — not a whole-word search; the
result depends only on the first two Oracle attempts, and when both attempts
fail (raise or fail validation) the result is `none`. -/
theorem C8_generate_sentence_amended (oracle oracle2 oracle3 : Nat → Option String)
    (target_word s : String)
    (h : generate_sentence oracle target_word = some s)
    (e0 : oracle2 0 = oracle 0) (e1 : oracle2 1 = oracle 1)
    (hf0 : ∀ r, oracle3 0 = some r → attempt_result target_word r = none)
    (hf1 : ∀ r, oracle3 1 = some r → attempt_result target_word r = none) :
    pyInStr (pyLower (main_word_of target_word)) (pyLower s) = true
    ∧ generate_sentence oracle2 target_word = some s
    ∧ generate_sentence oracle3 target_word = none := by
  refine ⟨?_, ?_, ?_⟩
  · unfold generate_sentence at h
    cases h0 : oracle 0 with
    | none =>
      rw [h0] at h
      dsimp only at h
      cases h1 : oracle 1 with
      | none => rw [h1] at h; exact Option.noConfusion h
      | some r => rw [h1] at h; exact attempt_result_substring _ _ _ h
    | some r =>
      rw [h0] at h
      dsimp only at h
      cases har : attempt_result target_word r with
      | some s0 =>
        rw [har] at h
        dsimp only at h
        rw [← Option.some.inj h]
        exact attempt_result_substring _ _ _ har
      | none =>
        rw [har] at h
        dsimp only at h
        cases h1 : oracle 1 with
        | none => rw [h1] at h; exact Option.noConfusion h
        | some r2 => rw [h1] at h; exact attempt_result_substring _ _ _ h
  · unfold generate_sentence at h ⊢
    rw [e0, e1]
    exact h
  · unfold generate_sentence
    cases h0 : oracle3 0 with
    | none =>
      dsimp only
      cases h1 : oracle3 1 with
      | none => rfl
      | some r =>
        dsimp only
        exact hf1 r h1
    | some r =>
      dsimp only
      rw [hf0 r h0]
      dsimp only
      cases h1 : oracle3 1 with
      | none => rfl
      | some r2 =>
        dsimp only
        exact hf1 r2 h1

/-- An Oracle whose first attempt yields a valid sentence for "Hund". -/
def oracleHund : Nat → Option String := fun n => if n = 0 then some "Der Hund schlaeft." else none

/-- An Oracle that always raises. -/
def oracleDown : Nat → Option String := fun _ => none

theorem C8_generate_sentence_amended_witness :
    pyInStr (pyLower (main_word_of "Hund")) (pyLower "Der Hund schlaeft.") = true
    ∧ generate_sentence oracleHund "Hund" = some "Der Hund schlaeft."
    ∧ generate_sentence oracleDown "Hund" = none :=
  C8_generate_sentence_amended oracleHund oracleHund oracleDown "Hund" "Der Hund schlaeft."
    (by decide) rfl rfl (fun r hr => by simp [oracleDown] at hr)
    (fun r hr => by simp [oracleDown] at hr)

/-! ## training_engine.py: session orchestration

The session dictionary built by `start_training_session`
(`training_engine.py` lines 61-69) plus the `pre_generated_task` entry that
the background preparation adds.  Task construction
(`_create_task_for_word`) depends on the Oracle and on randomness; it is
abstracted as a function `create_task : WordRow → Option τ` over an abstract
task type `τ`. -/

/-- The per-session state dictionary. -/
structure SessionData (τ : Type) where
  user_id : String
  language : String
  words : List WordRow
  current_word_index : Nat
  total_words : Nat
  pre_generated_task : Option τ

/-- The possible results of `get_next_task`
(`training_engine.py` lines 478-520). -/
inductive GetNextOutcome (τ : Type) where
  | noMoreTasks
  | failedToCreate
  | ok (task : τ) (current_task_index : Nat) (total_tasks : Nat) (is_last_task : Bool)
deriving DecidableEq

/-- `hasattr(session_data, "pre_generated_task")` at
`training_engine.py` line 499: in Python, `hasattr` looks up object
attributes, and the session state is a `dict`, whose entries are items, not
attributes — so this expression is `False` for every session dictionary,
whatever its keys hold. -/
def dict_hasattr_pre_generated_task {τ : Type} (_ : SessionData τ) : Bool :=
  false

/-- `TrainingEngine._create_next_task_in_background`
(`training_engine.py` lines 522-544): fill the single prefetch slot for
`next_index` when it is in range and the slot is empty (a falsy
`session_data.get('pre_generated_task')`). -/
def create_next_task_in_background {τ : Type} (create_task : WordRow → Option τ)
    (sd : SessionData τ) (next_index : Nat) : SessionData τ :=
  if decide (next_index < sd.words.length) && sd.pre_generated_task.isNone then
    match (sd.words.get? next_index).bind create_task with
    | some t => { sd with pre_generated_task := some t }
    | none => sd
  else sd

/-- `TrainingEngine.prepare_next_task_in_background`
(`training_engine.py` lines 546-575): same, for the word at the current
position. -/
def prepare_next_task_in_background {τ : Type} (create_task : WordRow → Option τ)
    (sd : SessionData τ) : SessionData τ :=
  if decide (sd.current_word_index < sd.words.length) && sd.pre_generated_task.isNone then
    match (sd.words.get? sd.current_word_index).bind create_task with
    | some t => { sd with pre_generated_task := some t }
    | none => sd
  else sd

/-- `TrainingEngine.get_next_task` (`training_engine.py` lines 478-520),
given a found session: report "no more tasks" past the end; otherwise
increment and save the position index FIRST, then either consume the
prefetch slot (guarded by the `hasattr` test on the session dict) or build
the task for the word at the old position, and finally trigger the
background construction for the following position. -/
def get_next_task {τ : Type} (create_task : WordRow → Option τ) (sd : SessionData τ) :
    GetNextOutcome τ × SessionData τ :=
  let current_index := sd.current_word_index
  if decide (sd.words.length ≤ current_index) then (.noMoreTasks, sd)
  else
    let sd1 : SessionData τ := { sd with current_word_index := current_index + 1 }
    let step : Option τ × SessionData τ :=
      if dict_hasattr_pre_generated_task sd1 && sd1.pre_generated_task.isSome then
        (sd1.pre_generated_task, { sd1 with pre_generated_task := none })
      else
        ((sd1.words.get? current_index).bind create_task, sd1)
    match step.1 with
    | none => (.failedToCreate, step.2)
    | some t =>
      let sd3 := create_next_task_in_background create_task step.2 (current_index + 1)
      (.ok t (current_index + 1) sd3.words.length
        (decide (sd3.words.length ≤ current_index + 1)), sd3)

theorem background_preserves_index {τ : Type} (create_task : WordRow → Option τ)
    (sd : SessionData τ) (n : Nat) :
    (create_next_task_in_background create_task sd n).current_word_index
      = sd.current_word_index := by
  unfold create_next_task_in_background
  split
  · split <;> rfl
  · rfl

/-- A second word pair, giving the session a word to advance to. -/
def wCat : WordRow :=
  { word_id := "w1", user_id := "u", native_word := "cat", target_word := "gato",
    progress := 0, last_training_date := none, next_training_date := -1, language := "es" }

/-- A two-word session positioned at the start, prefetch slot empty. -/
def sessionStart : SessionData Nat :=
  { user_id := "u", language := "es", words := [wDog, wCat],
    current_word_index := 0, total_words := 2, pre_generated_task := none }

/-- C9: `prepare_next_task_in_background` fills the single prefetch slot
(here with task `99`), but the next `get_next_task` call does NOT return the
cached task: the guard `hasattr(session_data, 'pre_generated_task')` is
always false on a dict, so the task is rebuilt via `_create_task_for_word`
(here returning `1`) and the stale cached task stays in the slot. -/
theorem C9_prefetch_never_consumed :
    (prepare_next_task_in_background (fun _ => some 99) sessionStart).pre_generated_task
      = some 99
    ∧ (get_next_task (fun _ => some 1)
        (prepare_next_task_in_background (fun _ => some 99) sessionStart)).1
      = GetNextOutcome.ok 1 1 2 false
    ∧ (get_next_task (fun _ => some 1)
        (prepare_next_task_in_background (fun _ => some 99) sessionStart)).2.pre_generated_task
      = some 99 := by
  refine ⟨rfl, rfl, rfl⟩

/-- C10: whenever the current position is in range, `get_next_task` advances
the saved position index to `i + 1` before attempting task construction; in
particular when construction fails the call returns the
"Failed to create next task" outcome while the session state has still moved
past word `i`. -/
theorem C10_advance_before_construction {τ : Type} (create_task : WordRow → Option τ)
    (sd : SessionData τ) (h : sd.current_word_index < sd.words.length) :
    (get_next_task create_task sd).2.current_word_index = sd.current_word_index + 1
    ∧ ((sd.words.get? sd.current_word_index).bind create_task = none →
        (get_next_task create_task sd).1 = GetNextOutcome.failedToCreate) := by
  unfold get_next_task
  rw [if_neg (by simpa using Nat.not_le.mpr h)]
  simp only [dict_hasattr_pre_generated_task, Bool.false_and, Bool.false_eq_true, if_false]
  constructor
  · cases hb : (sd.words.get? sd.current_word_index).bind create_task with
    | none => rfl
    | some t =>
      dsimp only
      exact background_preserves_index _ _ _
  · intro hnone
    rw [hnone]

theorem C10_advance_before_construction_witness :
    (get_next_task (fun _ => (none : Option Nat)) sessionStart).2.current_word_index
      = sessionStart.current_word_index + 1
    ∧ (([wDog, wCat].get? sessionStart.current_word_index).bind
          (fun _ => (none : Option Nat)) = none →
        (get_next_task (fun _ => (none : Option Nat)) sessionStart).1
          = GetNextOutcome.failedToCreate) :=
  C10_advance_before_construction (fun _ => none) sessionStart (by decide)

end LaSTy
